import Mathlib

/-!
Shallow embedding of the configuration-resolution and tool-selection core of
the playwright-mcp repository: the functions of the configuration module
(resolveConfig, configFromCLIOptions, loadConfig, createUserDataDir,
mergeConfig, the compiled-in default config) and the tool selection performed
by createServer in index.ts.

JavaScript object semantics are made explicit: every object field is modelled
as Option (Option v), where the outer none means the key is absent from the
object, some none means the key is present with value undefined, and
some (some v) means the key is present with value v. This distinction matters
because the spread operator copies present keys even when their value is
undefined, while absent keys are skipped.

Effects are modelled by explicit parameters: the operating-system environment
(platform, environment variables, home and temp directories, the ephemeral
port returned by findFreePort, the device-preset table) is a record passed in,
the filesystem of created directories is threaded as state, and file
reading/JSON parsing is an oracle from paths to parsed configs or errors.
-/

namespace PlaywrightMcp

/-- One field of a JavaScript spread of two objects: the value of the key in
the result of an object literal spreading base then overrides. The overriding
object wins whenever it materializes the key, even with value undefined. -/
def jsSpread {α : Type} (b o : Option (Option α)) : Option (Option α) :=
  match o with
  | some v => some v
  | none => b

/-- The three browser engines of the Config type. -/
inductive BrowserName where
  | chromium
  | firefox
  | webkit
deriving DecidableEq, Repr

/-- The string form of a browser name, as used in profile-directory naming. -/
def browserNameString : BrowserName → String
  | BrowserName.chromium => "chromium"
  | BrowserName.firefox => "firefox"
  | BrowserName.webkit => "webkit"

/-- A viewport value inside contextOptions; the compiled default sets it to
JavaScript null, device presets set concrete dimensions. -/
inductive ViewportSetting where
  | vnull
  | size (width height : Nat)
deriving DecidableEq, Repr

/-- The launchOptions nested bag (playwright LaunchOptions plus the
webSocketPort and assistantMode keys the config module writes into it). -/
structure LaunchOptions where
  channel : Option (Option String) := none
  executablePath : Option (Option String) := none
  headless : Option (Option Bool) := none
  webSocketPort : Option (Option Nat) := none
  assistantMode : Option (Option Bool) := none
deriving DecidableEq, Repr

/-- The contextOptions nested bag (the browser-context options relevant to
this module: the viewport the default config sets, and a representative
second key as populated by device presets). -/
structure ContextOptions where
  viewport : Option (Option ViewportSetting) := none
  userAgent : Option (Option String) := none
deriving DecidableEq, Repr

/-- The browser section of Config. -/
structure BrowserConfig where
  browserName : Option (Option BrowserName) := none
  userDataDir : Option (Option String) := none
  launchOptions : Option (Option LaunchOptions) := none
  contextOptions : Option (Option ContextOptions) := none
  cdpEndpoint : Option (Option String) := none
deriving DecidableEq, Repr

/-- The server section of Config. -/
structure ServerConfig where
  port : Option (Option Nat) := none
  host : Option (Option String) := none
deriving DecidableEq, Repr

/-- The Config type of the configuration module. -/
structure Config where
  browser : Option (Option BrowserConfig) := none
  server : Option (Option ServerConfig) := none
  capabilities : Option (Option (List String)) := none
  vision : Option (Option Bool) := none
  outputDir : Option (Option String) := none
deriving DecidableEq, Repr

/-- The browser object of a config, as a spread source: an absent or
undefined browser key spreads as the empty object. -/
def browserOf (c : Config) : BrowserConfig :=
  (c.browser.join).getD {}

/-- config.browser?.launchOptions as a spread source: absent levels and
undefined values spread as the empty object. -/
def launchOptionsOf (c : Config) : LaunchOptions :=
  ((browserOf c).launchOptions.join).getD {}

/-- config.browser?.contextOptions as a spread source. -/
def contextOptionsOf (c : Config) : ContextOptions :=
  ((browserOf c).contextOptions.join).getD {}

/-- mergeConfig(base, overrides): top-level fields are spread-merged with
overrides winning, except browser, which is rebuilt with spread-merged own
fields and explicitly merged launchOptions and contextOptions; assistantMode
is forced to true in the merged launchOptions. -/
def mergeConfig (base overrides : Config) : Config :=
  let bb := browserOf base
  let ob := browserOf overrides
  let bLO := launchOptionsOf base
  let oLO := launchOptionsOf overrides
  let bCO := contextOptionsOf base
  let oCO := contextOptionsOf overrides
  let launchOptions : LaunchOptions :=
    { channel := jsSpread bLO.channel oLO.channel
      executablePath := jsSpread bLO.executablePath oLO.executablePath
      headless := jsSpread bLO.headless oLO.headless
      webSocketPort := jsSpread bLO.webSocketPort oLO.webSocketPort
      assistantMode := some (some true) }
  let contextOptions : ContextOptions :=
    { viewport := jsSpread bCO.viewport oCO.viewport
      userAgent := jsSpread bCO.userAgent oCO.userAgent }
  let browser : BrowserConfig :=
    { browserName := jsSpread bb.browserName ob.browserName
      userDataDir := jsSpread bb.userDataDir ob.userDataDir
      cdpEndpoint := jsSpread bb.cdpEndpoint ob.cdpEndpoint
      launchOptions := some (some launchOptions)
      contextOptions := some (some contextOptions) }
  { browser := some (some browser)
    server := jsSpread base.server overrides.server
    capabilities := jsSpread base.capabilities overrides.capabilities
    vision := jsSpread base.vision overrides.vision
    outputDir := jsSpread base.outputDir overrides.outputDir }

/-- The host platform as reported by process.platform. -/
inductive HostPlatform where
  | linux
  | darwin
  | win32
  | other (name : String)
deriving DecidableEq, Repr

/-- The raw CLI options structure. Ordinary reads of its fields do not
distinguish an absent key from one set to undefined, so a single Option
suffices per field. -/
structure CLIOptions where
  browser : Option String := none
  caps : Option String := none
  cdpEndpoint : Option String := none
  executablePath : Option String := none
  device : Option String := none
  userDataDir : Option String := none
  headless : Option Bool := none
  port : Option Nat := none
  host : Option String := none
  vision : Option Bool := none
  config : Option String := none
deriving DecidableEq, Repr

/-- The operating-system environment the configuration module reads:
process.platform, the environment variables XDG_CACHE_HOME, LOCALAPPDATA and
DISPLAY, os.homedir(), os.tmpdir(), the ephemeral port findFreePort obtains
from the OS, and the playwright device-preset table. -/
structure OsEnv where
  platform : HostPlatform
  xdgCacheHome : Option String
  localAppData : Option String
  display : Option String
  homedir : String
  tmpdir : String
  freePort : Nat
  devices : String → Option ContextOptions

/-- The set of directories created so far, modelling the filesystem state
touched by fs.promises.mkdir. -/
abbrev DirState := List String

/-- fs.promises.mkdir(p, recursive true): succeeds whether or not the
directory already exists, and creates it when absent. -/
def mkdirRecursive (fs : DirState) (p : String) : DirState :=
  if p ∈ fs then fs else p :: fs

/-- JavaScript truthiness of an environment-variable read used in expressions
such as process.env.XDG_CACHE_HOME or fallback: both an unset variable and an
empty string are falsy. -/
def envFalsy (v : Option String) : Bool :=
  match v with
  | none => true
  | some s => s.isEmpty

/-- v or fallback for an environment variable: the fallback is used when v is
unset or empty. -/
def envOr (v : Option String) (fallback : String) : String :=
  match v with
  | some s => if s.isEmpty then fallback else s
  | none => fallback

/-- path.join, modelled with a forward-slash separator. -/
def pathJoin : List String → String
  | [] => ""
  | [x] => x
  | x :: xs => x ++ "/" ++ pathJoin xs

/-- createUserDataDir: derives the platform cache directory (XDG_CACHE_HOME or
home/.cache on linux, Library/Caches on darwin, LOCALAPPDATA or
AppData/Local on win32, an error elsewhere), appends
ms-playwright/mcp-(channel or browserName)-profile, creates the directory
recursively, and returns the path together with the new filesystem state. -/
def createUserDataDir (env : OsEnv) (fs : DirState) (browserName : BrowserName)
    (channel : Option String) : Except String (String × DirState) :=
  match (match env.platform with
    | HostPlatform.linux =>
        Except.ok (envOr env.xdgCacheHome (pathJoin [env.homedir, ".cache"]))
    | HostPlatform.darwin =>
        Except.ok (pathJoin [env.homedir, "Library", "Caches"])
    | HostPlatform.win32 =>
        Except.ok (envOr env.localAppData (pathJoin [env.homedir, "AppData", "Local"]))
    | HostPlatform.other name =>
        (Except.error ("Unsupported platform: " ++ name) : Except String String)) with
  | Except.error e => Except.error e
  | Except.ok cacheDirectory =>
      let result := pathJoin [cacheDirectory, "ms-playwright",
        "mcp-" ++ (channel.getD (browserNameString browserName)) ++ "-profile"]
      Except.ok (result, mkdirRecursive fs result)

/-- The browser tokens of the switch in configFromCLIOptions that map to
chromium with the token itself as channel. -/
def chromiumChannels : List String :=
  ["chrome", "chrome-beta", "chrome-canary", "chrome-dev", "chromium",
   "msedge", "msedge-beta", "msedge-canary", "msedge-dev"]

/-- The switch over cliOptions.browser in configFromCLIOptions: the chromium
channel tokens keep the token as channel, firefox and webkit map to
themselves with no channel, and every other value (including an absent one)
falls to the default chromium with channel chrome. -/
def browserChoice (browser : Option String) : BrowserName × Option String :=
  match browser with
  | some tok =>
      if tok ∈ chromiumChannels then (BrowserName.chromium, some tok)
      else if tok = "firefox" then (BrowserName.firefox, none)
      else if tok = "webkit" then (BrowserName.webkit, none)
      else (BrowserName.chromium, some "chrome")
  | none => (BrowserName.chromium, some "chrome")

/-- Splitting a character list at commas, as String.prototype.split(',') does:
the empty input yields one empty group. -/
def splitOnComma : List Char → List (List Char)
  | [] => [[]]
  | c :: rest =>
      if c = ',' then [] :: splitOnComma rest
      else
        match splitOnComma rest with
        | [] => [[c]]
        | g :: gs => (c :: g) :: gs

/-- A JavaScript whitespace character, for the purposes of trim. -/
def isJsSpace (c : Char) : Bool :=
  c = ' ' || c = '\t' || c = '\n' || c = '\r'

/-- String.prototype.trim: strip leading and trailing whitespace. -/
def jsTrim (cs : List Char) : List Char :=
  ((cs.dropWhile isJsSpace).reverse.dropWhile isJsSpace).reverse

/-- caps.split(',').map(c => c.trim()), the capability-list parsing in
configFromCLIOptions. -/
def capsList (s : String) : List String :=
  (splitOnComma s.data).map (fun g => String.mk (jsTrim g))

/-- The launchOptions object configFromCLIOptions builds: the channel,
executablePath and headless keys are always materialized from the CLI values
(possibly undefined), and webSocketPort is added, holding the freshly
allocated port, exactly when the browser is chromium. -/
def cliLaunchOptions (env : OsEnv) (browserName : BrowserName) (channel : Option String)
    (cliOptions : CLIOptions) : LaunchOptions :=
  let launchOptions0 : LaunchOptions :=
    { channel := some channel
      executablePath := some cliOptions.executablePath
      headless := some cliOptions.headless }
  if browserName = BrowserName.chromium then
    { launchOptions0 with webSocketPort := some (some env.freePort) }
  else launchOptions0

/-- configFromCLIOptions: maps the browser token, builds launchOptions via
cliLaunchOptions, resolves contextOptions from the device-preset table when a
device is given, resolves userDataDir (CLI value or createUserDataDir), and
returns the CLI config fragment with the browser, server, capabilities and
vision keys always materialized. -/
def configFromCLIOptions (env : OsEnv) (fs : DirState) (cliOptions : CLIOptions) :
    Except String (Config × DirState) :=
  match browserChoice cliOptions.browser with
  | (browserName, channel) =>
    let launchOptions := cliLaunchOptions env browserName channel cliOptions
    let contextOptions : Option ContextOptions :=
      match cliOptions.device with
      | some d => if d.isEmpty then none else env.devices d
      | none => none
    match (match cliOptions.userDataDir with
      | some d => Except.ok (d, fs)
      | none => createUserDataDir env fs browserName channel) with
    | Except.error e => Except.error e
    | Except.ok (userDataDir, fs) =>
        Except.ok
          ({ browser := some (some
               { browserName := some (some browserName)
                 userDataDir := some (some userDataDir)
                 launchOptions := some (some launchOptions)
                 contextOptions := some contextOptions
                 cdpEndpoint := some cliOptions.cdpEndpoint })
             server := some (some
               { port := some cliOptions.port
                 host := some cliOptions.host })
             capabilities := some (cliOptions.caps.map capsList)
             vision := some (some (cliOptions.vision.getD false)) }, fs)

/-- loadConfig: with no config-file path (undefined, or the falsy empty
string) it returns the empty config; otherwise it reads and JSON-parses the
file through the oracle, wrapping any failure in an error message carrying
the path and the underlying cause. -/
def loadConfig (readAndParse : String → Except String Config)
    (configFile : Option String) : Except String Config :=
  match configFile with
  | none => Except.ok {}
  | some p =>
      if p.isEmpty then Except.ok {}
      else
        match readAndParse p with
        | Except.ok c => Except.ok c
        | Except.error e =>
            Except.error ("Failed to load config file: " ++ p ++ ", " ++ e)

/-- The compiled-in default config: chromium, channel chrome, userDataDir
os.tmpdir(), headless exactly when the platform is linux and DISPLAY is
falsy, viewport null. -/
def defaultConfig (env : OsEnv) : Config :=
  { browser := some (some
      { browserName := some (some BrowserName.chromium)
        userDataDir := some (some env.tmpdir)
        launchOptions := some (some
          { channel := some (some "chrome")
            headless := some (some
              (decide (env.platform = HostPlatform.linux) && envFalsy env.display)) })
        contextOptions := some (some
          { viewport := some (some ViewportSetting.vnull) }) }) }

/-- resolveConfig: loads the file config, builds the CLI fragment, and folds
both onto the compiled default as
mergeConfig(defaultConfig, mergeConfig(fileConfig, cliConfig)). -/
def resolveConfig (env : OsEnv) (readAndParse : String → Except String Config)
    (fs : DirState) (cliOptions : CLIOptions) : Except String (Config × DirState) :=
  match loadConfig readAndParse cliOptions.config with
  | Except.error e => Except.error e
  | Except.ok config =>
      match configFromCLIOptions env fs cliOptions with
      | Except.error e => Except.error e
      | Except.ok (cliOverrides, fs) =>
          Except.ok (mergeConfig (defaultConfig env) (mergeConfig config cliOverrides), fs)

/-- An operation handler exposed over the protocol.
Modelled from the spec: the tool modules imported by index.ts are not part of
the given sources; per the spec each tool carries exactly one capability
tag. -/
structure Tool where
  name : String
  capability : String
deriving DecidableEq, Repr

/-- JavaScript truthiness of config.vision: true exactly when the key is
present with value true. -/
def visionTruthy (config : Config) : Bool :=
  (config.vision.join).getD false

/-- The tool selection in createServer: pick screenshotTools when
config.vision is truthy, else snapshotTools, and keep a tool when
config.capabilities is absent or undefined, or the tool capability is core,
or the capability list contains the tool capability. -/
def createServerTools (config : Config) (snapshotTools screenshotTools : List Tool) :
    List Tool :=
  let allTools := if visionTruthy config then screenshotTools else snapshotTools
  allTools.filter (fun tool =>
    match config.capabilities.join with
    | none => true
    | some caps => tool.capability = "core" || caps.contains tool.capability)

/-! ### Concrete fixtures used across the theorems -/

/-- A linux host with no relevant environment variables set, a fixed ephemeral
port and an empty device-preset table. -/
def envL : OsEnv :=
  { platform := HostPlatform.linux
    xdgCacheHome := none
    localAppData := none
    display := none
    homedir := "/home/user"
    tmpdir := "/tmp"
    freePort := 9222
    devices := fun _ => none }

/-- A read-and-parse oracle for a host with no readable config files. -/
def noFiles : String → Except String Config :=
  fun p => Except.error ("ENOENT: no such file " ++ p)

/-- The CLI options of the end-to-end firefox scenario. -/
def cliFirefox : CLIOptions :=
  { browser := some "firefox", headless := some true, caps := some "core,tabs" }

/-- The config the firefox scenario resolves to on envL. -/
def firefoxConfig : Config :=
  { browser := some (some
      { browserName := some (some BrowserName.firefox)
        userDataDir := some (some "/home/user/.cache/ms-playwright/mcp-firefox-profile")
        launchOptions := some (some
          { channel := some none
            executablePath := some none
            headless := some (some true)
            webSocketPort := none
            assistantMode := some (some true) })
        contextOptions := some (some
          { viewport := some (some ViewportSetting.vnull)
            userAgent := none })
        cdpEndpoint := some none })
    server := some (some { port := some none, host := some none })
    capabilities := some (some ["core", "tabs"])
    vision := some (some false)
    outputDir := none }

/-- The directories created by the firefox scenario. -/
def firefoxDirs : DirState :=
  ["/home/user/.cache/ms-playwright/mcp-firefox-profile"]

/-- A base config whose launchOptions carries several keys, among them an
executablePath and an assistantMode explicitly set to false. -/
def c5Base : Config :=
  { browser := some (some
      { launchOptions := some (some
          { channel := some (some "beta")
            executablePath := some (some "/usr/bin/chromium-dev")
            webSocketPort := some (some 4321)
            assistantMode := some (some false) }) }) }

/-- An overrides config whose launchOptions materializes only the headless
key. -/
def c5Overrides : Config :=
  { browser := some (some
      { launchOptions := some (some { headless := some (some true) }) }) }

/-- A base config with a fully populated server object and a browser
userDataDir. -/
def c6Base : Config :=
  { browser := some (some { userDataDir := some (some "/data") })
    server := some (some { port := some (some 4000), host := some (some "localhost") }) }

/-- An overrides config whose server object sets only the port. -/
def c6Overrides : Config :=
  { server := some (some { port := some (some 8080) }) }

/-- The profile directory for channel chrome on envL. -/
def chromeProfilePath : String := "/home/user/.cache/ms-playwright/mcp-chrome-profile"

/-- The profile directory for channel msedge on envL. -/
def msedgeProfilePath : String := "/home/user/.cache/ms-playwright/mcp-msedge-profile"

/-- The filesystem after the chrome profile directory was created. -/
def chromeDirs : DirState := [chromeProfilePath]

/-- The CLI config fragment configFromCLIOptions builds for cliFirefox on
envL. -/
def firefoxCliConfig : Config :=
  { browser := some (some
      { browserName := some (some BrowserName.firefox)
        userDataDir := some (some "/home/user/.cache/ms-playwright/mcp-firefox-profile")
        launchOptions := some (some
          { channel := some none
            executablePath := some none
            headless := some (some true)
            webSocketPort := none
            assistantMode := none })
        contextOptions := some none
        cdpEndpoint := some none })
    server := some (some { port := some none, host := some none })
    capabilities := some (some ["core", "tabs"])
    vision := some (some false)
    outputDir := none }

/-- A config-file path whose content is malformed. -/
def badFile : String := "/etc/mcp-config.json"

/-- A read-and-parse oracle that fails on every file, as JSON.parse does on
malformed content. -/
def badRead : String → Except String Config :=
  fun _ => Except.error "SyntaxError: Unexpected token in JSON"

/-- CLI options that point at the malformed config file. -/
def cliWithConfig : CLIOptions := { config := some badFile }

/-! ### Helper lemmas -/

lemma jsSpread_some {α : Type} (b : Option (Option α)) (v : Option α) :
    jsSpread b (some v) = some v := rfl

lemma jsSpread_arg_none {α : Type} (b : Option (Option α)) :
    jsSpread b none = b := rfl

/-- The three-layer spread chain picks the last layer that materializes the
key. -/
lemma jsSpread_chain {α : Type} (d f c : Option (Option α)) :
    jsSpread d (jsSpread f c)
      = if c.isSome then c else if f.isSome then f else d := by
  cases c <;> cases f <;> simp [jsSpread]

lemma mergeConfig_outputDir (b o : Config) :
    (mergeConfig b o).outputDir = jsSpread b.outputDir o.outputDir := rfl

lemma mergeConfig_vision (b o : Config) :
    (mergeConfig b o).vision = jsSpread b.vision o.vision := rfl

lemma mergeConfig_capabilities (b o : Config) :
    (mergeConfig b o).capabilities = jsSpread b.capabilities o.capabilities := rfl

lemma mergeConfig_server (b o : Config) :
    (mergeConfig b o).server = jsSpread b.server o.server := rfl

lemma mergeConfig_browserName (b o : Config) :
    (browserOf (mergeConfig b o)).browserName
      = jsSpread (browserOf b).browserName (browserOf o).browserName := rfl

lemma mergeConfig_userDataDir (b o : Config) :
    (browserOf (mergeConfig b o)).userDataDir
      = jsSpread (browserOf b).userDataDir (browserOf o).userDataDir := rfl

lemma mergeConfig_cdpEndpoint (b o : Config) :
    (browserOf (mergeConfig b o)).cdpEndpoint
      = jsSpread (browserOf b).cdpEndpoint (browserOf o).cdpEndpoint := rfl

lemma mergeConfig_lo_channel (b o : Config) :
    (launchOptionsOf (mergeConfig b o)).channel
      = jsSpread (launchOptionsOf b).channel (launchOptionsOf o).channel := rfl

lemma mergeConfig_lo_executablePath (b o : Config) :
    (launchOptionsOf (mergeConfig b o)).executablePath
      = jsSpread (launchOptionsOf b).executablePath (launchOptionsOf o).executablePath := rfl

lemma mergeConfig_lo_headless (b o : Config) :
    (launchOptionsOf (mergeConfig b o)).headless
      = jsSpread (launchOptionsOf b).headless (launchOptionsOf o).headless := rfl

lemma mergeConfig_lo_webSocketPort (b o : Config) :
    (launchOptionsOf (mergeConfig b o)).webSocketPort
      = jsSpread (launchOptionsOf b).webSocketPort (launchOptionsOf o).webSocketPort := rfl

lemma mergeConfig_lo_assistantMode (b o : Config) :
    (launchOptionsOf (mergeConfig b o)).assistantMode = some (some true) := rfl

lemma mergeConfig_co_viewport (b o : Config) :
    (contextOptionsOf (mergeConfig b o)).viewport
      = jsSpread (contextOptionsOf b).viewport (contextOptionsOf o).viewport := rfl

lemma mergeConfig_co_userAgent (b o : Config) :
    (contextOptionsOf (mergeConfig b o)).userAgent
      = jsSpread (contextOptionsOf b).userAgent (contextOptionsOf o).userAgent := rfl

/-- A successful resolveConfig run is exactly the two-step merge of the file
fragment and the CLI fragment onto the compiled default. -/
lemma resolveConfig_ok {env : OsEnv} {rp : String → Except String Config}
    {fs : DirState} {cli : CLIOptions} {c : Config} {st : DirState}
    (h : resolveConfig env rp fs cli = Except.ok (c, st)) :
    ∃ F C, loadConfig rp cli.config = Except.ok F ∧
      configFromCLIOptions env fs cli = Except.ok (C, st) ∧
      c = mergeConfig (defaultConfig env) (mergeConfig F C) := by
  unfold resolveConfig at h
  cases hF : loadConfig rp cli.config with
  | error e => rw [hF] at h; exact absurd h (by simp)
  | ok F =>
    rw [hF] at h
    cases hC : configFromCLIOptions env fs cli with
    | error e => rw [hC] at h; exact absurd h (by simp)
    | ok pr =>
      obtain ⟨C, st'⟩ := pr
      rw [hC] at h
      simp only [Except.ok.injEq, Prod.mk.injEq] at h
      obtain ⟨hc, hst⟩ := h
      subst hst
      exact ⟨F, C, rfl, rfl, hc.symm⟩

lemma cliLaunchOptions_channel (env : OsEnv) (bn : BrowserName) (ch : Option String)
    (cli : CLIOptions) : (cliLaunchOptions env bn ch cli).channel = some ch := by
  cases bn <;> rfl

lemma cliLaunchOptions_executablePath (env : OsEnv) (bn : BrowserName) (ch : Option String)
    (cli : CLIOptions) :
    (cliLaunchOptions env bn ch cli).executablePath = some cli.executablePath := by
  cases bn <;> rfl

lemma cliLaunchOptions_headless (env : OsEnv) (bn : BrowserName) (ch : Option String)
    (cli : CLIOptions) : (cliLaunchOptions env bn ch cli).headless = some cli.headless := by
  cases bn <;> rfl

/-- The shape of a successful configFromCLIOptions result: all the always
materialized keys of the CLI fragment, stated through the accessors. -/
lemma configFromCLIOptions_ok {env : OsEnv} {fs : DirState} {cli : CLIOptions}
    {C : Config} {st : DirState}
    (h : configFromCLIOptions env fs cli = Except.ok (C, st)) :
    C.vision = some (some (cli.vision.getD false)) ∧
    C.server = some (some { port := some cli.port, host := some cli.host }) ∧
    C.capabilities = some (cli.caps.map capsList) ∧
    (browserOf C).browserName = some (some (browserChoice cli.browser).1) ∧
    (launchOptionsOf C).channel = some (browserChoice cli.browser).2 ∧
    (launchOptionsOf C).executablePath = some cli.executablePath ∧
    (launchOptionsOf C).headless = some cli.headless := by
  unfold configFromCLIOptions at h
  rcases hbc : browserChoice cli.browser with ⟨bn, ch⟩
  rw [hbc] at h
  simp only at h
  cases hud : (match cli.userDataDir with
    | some d => Except.ok (d, fs)
    | none => createUserDataDir env fs bn ch : Except String (String × DirState)) with
  | error e => rw [hud] at h; exact absurd h (by simp)
  | ok pr =>
    obtain ⟨udd, fs'⟩ := pr
    rw [hud] at h
    simp only [Except.ok.injEq, Prod.mk.injEq] at h
    obtain ⟨hc, -⟩ := h
    subst hc
    refine ⟨rfl, rfl, rfl, rfl, ?_, ?_, ?_⟩
    · simpa [launchOptionsOf, browserOf] using cliLaunchOptions_channel env bn ch cli
    · simpa [launchOptionsOf, browserOf] using cliLaunchOptions_executablePath env bn ch cli
    · simpa [launchOptionsOf, browserOf] using cliLaunchOptions_headless env bn ch cli

lemma mkdirRecursive_mem (fs : DirState) (p : String) : p ∈ mkdirRecursive fs p := by
  by_cases h : p ∈ fs <;> simp [mkdirRecursive, h]

lemma mkdirRecursive_idem (fs : DirState) (p : String) :
    mkdirRecursive (mkdirRecursive fs p) p = mkdirRecursive fs p := by
  by_cases h : p ∈ fs <;> simp [mkdirRecursive, h]

/-- Appending a fixed prefix and a fixed suffix around a string is
injective. -/
lemma append_around_inj (pre suf a b : String)
    (h : pre ++ a ++ suf = pre ++ b ++ suf) : a = b := by
  have hd := congrArg String.data h
  simp only [String.data_append, List.append_assoc] at hd
  exact String.ext (List.append_cancel_right (List.append_cancel_left hd))

/-- pathJoin on a three-segment path is injective in the last segment. -/
lemma pathJoin3_inj (c m a b : String)
    (h : pathJoin [c, m, a] = pathJoin [c, m, b]) : a = b := by
  simp only [pathJoin] at h
  have hd := congrArg String.data h
  simp only [String.data_append, List.append_assoc] at hd
  exact String.ext
    (List.append_cancel_left (List.append_cancel_left
      (List.append_cancel_left (List.append_cancel_left hd))))

/-- loadConfig wraps a failing read or parse into an error carrying the path
and the cause. -/
lemma loadConfig_error (rp : String → Except String Config) (p e : String)
    (hp : p.isEmpty = false) (hrp : rp p = Except.error e) :
    loadConfig rp (some p)
      = Except.error ("Failed to load config file: " ++ p ++ ", " ++ e) := by
  simp [loadConfig, hp, hrp]

/-! ### Claim theorems -/

/-- C1: precedence chain of resolveConfig. For every compiled default D, file
fragment F and CLI fragment C, the double merge
mergeConfig(D, mergeConfig(F, C)) performed by resolveConfig yields, for each
scalar configuration field, C's value when C materializes the field, else F's
value, else D's value — at the top level (outputDir, vision, capabilities),
inside browser (browserName, userDataDir, cdpEndpoint) and inside
launchOptions (channel, executablePath, headless, webSocketPort). -/
theorem mergeConfig_precedence_chain (D F C : Config) :
    ((mergeConfig D (mergeConfig F C)).outputDir
        = if C.outputDir.isSome then C.outputDir
          else if F.outputDir.isSome then F.outputDir else D.outputDir) ∧
    ((mergeConfig D (mergeConfig F C)).vision
        = if C.vision.isSome then C.vision
          else if F.vision.isSome then F.vision else D.vision) ∧
    ((mergeConfig D (mergeConfig F C)).capabilities
        = if C.capabilities.isSome then C.capabilities
          else if F.capabilities.isSome then F.capabilities else D.capabilities) ∧
    ((browserOf (mergeConfig D (mergeConfig F C))).browserName
        = if (browserOf C).browserName.isSome then (browserOf C).browserName
          else if (browserOf F).browserName.isSome then (browserOf F).browserName
          else (browserOf D).browserName) ∧
    ((browserOf (mergeConfig D (mergeConfig F C))).userDataDir
        = if (browserOf C).userDataDir.isSome then (browserOf C).userDataDir
          else if (browserOf F).userDataDir.isSome then (browserOf F).userDataDir
          else (browserOf D).userDataDir) ∧
    ((browserOf (mergeConfig D (mergeConfig F C))).cdpEndpoint
        = if (browserOf C).cdpEndpoint.isSome then (browserOf C).cdpEndpoint
          else if (browserOf F).cdpEndpoint.isSome then (browserOf F).cdpEndpoint
          else (browserOf D).cdpEndpoint) ∧
    ((launchOptionsOf (mergeConfig D (mergeConfig F C))).channel
        = if (launchOptionsOf C).channel.isSome then (launchOptionsOf C).channel
          else if (launchOptionsOf F).channel.isSome then (launchOptionsOf F).channel
          else (launchOptionsOf D).channel) ∧
    ((launchOptionsOf (mergeConfig D (mergeConfig F C))).executablePath
        = if (launchOptionsOf C).executablePath.isSome then (launchOptionsOf C).executablePath
          else if (launchOptionsOf F).executablePath.isSome then (launchOptionsOf F).executablePath
          else (launchOptionsOf D).executablePath) ∧
    ((launchOptionsOf (mergeConfig D (mergeConfig F C))).headless
        = if (launchOptionsOf C).headless.isSome then (launchOptionsOf C).headless
          else if (launchOptionsOf F).headless.isSome then (launchOptionsOf F).headless
          else (launchOptionsOf D).headless) ∧
    ((launchOptionsOf (mergeConfig D (mergeConfig F C))).webSocketPort
        = if (launchOptionsOf C).webSocketPort.isSome then (launchOptionsOf C).webSocketPort
          else if (launchOptionsOf F).webSocketPort.isSome then (launchOptionsOf F).webSocketPort
          else (launchOptionsOf D).webSocketPort) := by
  refine ⟨?_, ?_, ?_, ?_, ?_, ?_, ?_, ?_, ?_, ?_⟩ <;>
    simp only [mergeConfig_outputDir, mergeConfig_vision, mergeConfig_capabilities,
      mergeConfig_browserName, mergeConfig_userDataDir, mergeConfig_cdpEndpoint,
      mergeConfig_lo_channel, mergeConfig_lo_executablePath, mergeConfig_lo_headless,
      mergeConfig_lo_webSocketPort, jsSpread_chain]

/-- C2: forced assistant-mode marker. Every mergeConfig result has
browser.launchOptions.assistantMode present and true, whatever the inputs set
it to, and consequently every config returned by resolveConfig carries the
marker. -/
theorem mergeConfig_assistantMode_forced :
    (∀ base overrides : Config,
      (launchOptionsOf (mergeConfig base overrides)).assistantMode = some (some true)) ∧
    (∀ (env : OsEnv) (rp : String → Except String Config) (fs : DirState)
        (cli : CLIOptions) (c : Config) (st : DirState),
      resolveConfig env rp fs cli = Except.ok (c, st) →
      (launchOptionsOf c).assistantMode = some (some true)) := by
  refine ⟨fun _ _ => rfl, ?_⟩
  intro env rp fs cli c st h
  obtain ⟨F, C, -, -, hc⟩ := resolveConfig_ok h
  rw [hc]
  exact mergeConfig_lo_assistantMode _ _

/-- C2 witness: the marker on a concrete successful resolution (even though
the compiled default does not set assistantMode and no input sets it). -/
theorem mergeConfig_assistantMode_forced_witness :
    (launchOptionsOf firefoxConfig).assistantMode = some (some true) :=
  mergeConfig_assistantMode_forced.2 envL noFiles [] cliFirefox firefoxConfig firefoxDirs rfl

/-- C3: the CLI fragment always materializes the vision, server, capabilities
and launchOptions keys, so for every successful resolution the resolved
vision equals the double-negated CLI vision flag, the resolved server is
exactly the object built from the CLI port and host, and the resolved
executablePath is the CLI value — in particular it is erased to undefined
when the CLI option is absent, whatever the config file supplied. -/
theorem resolveConfig_cli_always_wins (env : OsEnv) (rp : String → Except String Config)
    (fs : DirState) (cli : CLIOptions) (c : Config) (st : DirState)
    (h : resolveConfig env rp fs cli = Except.ok (c, st)) :
    c.vision = some (some (cli.vision.getD false)) ∧
    c.server = some (some { port := some cli.port, host := some cli.host }) ∧
    (launchOptionsOf c).executablePath = some cli.executablePath := by
  obtain ⟨F, C, -, hC, hc⟩ := resolveConfig_ok h
  obtain ⟨hv, hs, -, -, -, hep, -⟩ := configFromCLIOptions_ok hC
  subst hc
  refine ⟨?_, ?_, ?_⟩
  · rw [mergeConfig_vision, mergeConfig_vision, hv]; rfl
  · rw [mergeConfig_server, mergeConfig_server, hs]; rfl
  · rw [mergeConfig_lo_executablePath, mergeConfig_lo_executablePath, hep]; rfl

/-- C3 witness: a concrete resolution with no CLI executablePath, port, host
or vision flag yields vision false, a server object with undefined port and
host, and an executablePath key present with value undefined. -/
theorem resolveConfig_cli_always_wins_witness :
    firefoxConfig.vision = some (some (cliFirefox.vision.getD false)) ∧
    firefoxConfig.server
      = some (some { port := some cliFirefox.port, host := some cliFirefox.host }) ∧
    (launchOptionsOf firefoxConfig).executablePath = some cliFirefox.executablePath :=
  resolveConfig_cli_always_wins envL noFiles [] cliFirefox firefoxConfig firefoxDirs rfl

/-- C4: capability gating and registry exclusivity in createServer. The
exposed list is a sublist (hence order-preserving subset) of exactly the
registry selected by the vision flag — screenshotTools when truthy, else
snapshotTools — and a tool belongs to it exactly when it belongs to that
registry and capabilities is absent or undefined, or its capability tag is
core, or its tag is a member of the capability list; in particular no tool
outside the selected registry ever appears. -/
theorem createServerTools_spec (config : Config) (snapshotTools screenshotTools : List Tool) :
    (createServerTools config snapshotTools screenshotTools).Sublist
      (if visionTruthy config then screenshotTools else snapshotTools) ∧
    (∀ t : Tool,
      t ∈ createServerTools config snapshotTools screenshotTools ↔
        t ∈ (if visionTruthy config then screenshotTools else snapshotTools) ∧
          (config.capabilities.join = none ∨ t.capability = "core" ∨
            ∃ caps, config.capabilities.join = some caps ∧ t.capability ∈ caps)) := by
  constructor
  · exact List.filter_sublist _
  · intro t
    unfold createServerTools
    rw [List.mem_filter]
    cases hj : config.capabilities.join with
    | none => simp
    | some caps => simp [List.contains, List.elem_iff]

/-- C5 counterexample: the claim fails as stated. Here overrides'
launchOptions materializes only the headless key, base's launchOptions has an
assistantMode key set to false, yet the merged launchOptions does not keep
base's value for that key — the forced marker overwrites it. -/
theorem mergeConfig_only_headless_counterexample :
    ((launchOptionsOf c5Overrides).channel = none ∧
     (launchOptionsOf c5Overrides).executablePath = none ∧
     (launchOptionsOf c5Overrides).webSocketPort = none ∧
     (launchOptionsOf c5Overrides).assistantMode = none ∧
     (launchOptionsOf c5Overrides).headless = some (some true)) ∧
    (launchOptionsOf c5Base).assistantMode = some (some false) ∧
    (launchOptionsOf (mergeConfig c5Base c5Overrides)).assistantMode
      ≠ (launchOptionsOf c5Base).assistantMode := by
  refine ⟨⟨rfl, rfl, rfl, rfl, rfl⟩, rfl, ?_⟩
  decide

/-- C5 (amended): when overrides' launchOptions materializes only the
headless key, mergeConfig preserves every other key of base's launchOptions
except the forced assistantMode marker — in particular a pre-existing
executablePath — and contextOptions are merged key-by-key, never replaced
wholesale. -/
theorem mergeConfig_nested_isolation (base overrides : Config)
    (hch : (launchOptionsOf overrides).channel = none)
    (hep : (launchOptionsOf overrides).executablePath = none)
    (hws : (launchOptionsOf overrides).webSocketPort = none) :
    (launchOptionsOf (mergeConfig base overrides)).channel
      = (launchOptionsOf base).channel ∧
    (launchOptionsOf (mergeConfig base overrides)).executablePath
      = (launchOptionsOf base).executablePath ∧
    (launchOptionsOf (mergeConfig base overrides)).webSocketPort
      = (launchOptionsOf base).webSocketPort ∧
    (∀ b o : Config,
      (contextOptionsOf (mergeConfig b o)).viewport
        = jsSpread (contextOptionsOf b).viewport (contextOptionsOf o).viewport ∧
      (contextOptionsOf (mergeConfig b o)).userAgent
        = jsSpread (contextOptionsOf b).userAgent (contextOptionsOf o).userAgent) := by
  refine ⟨?_, ?_, ?_, fun b o => ⟨mergeConfig_co_viewport b o, mergeConfig_co_userAgent b o⟩⟩
  · rw [mergeConfig_lo_channel, hch]; rfl
  · rw [mergeConfig_lo_executablePath, hep]; rfl
  · rw [mergeConfig_lo_webSocketPort, hws]; rfl

/-- C5 witness: on the concrete pair of the counterexample, the base's
executablePath (and channel and webSocketPort) survive an overrides that sets
only headless. -/
theorem mergeConfig_nested_isolation_witness :
    (launchOptionsOf (mergeConfig c5Base c5Overrides)).channel
      = (launchOptionsOf c5Base).channel ∧
    (launchOptionsOf (mergeConfig c5Base c5Overrides)).executablePath
      = (launchOptionsOf c5Base).executablePath ∧
    (launchOptionsOf (mergeConfig c5Base c5Overrides)).webSocketPort
      = (launchOptionsOf c5Base).webSocketPort ∧
    (∀ b o : Config,
      (contextOptionsOf (mergeConfig b o)).viewport
        = jsSpread (contextOptionsOf b).viewport (contextOptionsOf o).viewport ∧
      (contextOptionsOf (mergeConfig b o)).userAgent
        = jsSpread (contextOptionsOf b).userAgent (contextOptionsOf o).userAgent) :=
  mergeConfig_nested_isolation c5Base c5Overrides rfl rfl rfl

/-- C6: wholesale replacement of server. Whenever overrides materializes the
server key, the merged server is exactly overrides' value — no sub-field of
base's server survives — in contrast with the browser group, whose fields are
merged recursively (base's userDataDir survives an overrides browser that
does not materialize it). -/
theorem mergeConfig_server_wholesale :
    (∀ (base overrides : Config) (v : Option ServerConfig),
      overrides.server = some v → (mergeConfig base overrides).server = some v) ∧
    (∀ base overrides : Config,
      (browserOf overrides).userDataDir = none →
      (browserOf (mergeConfig base overrides)).userDataDir
        = (browserOf base).userDataDir) := by
  constructor
  · intro base overrides v h
    rw [mergeConfig_server, h]; rfl
  · intro base overrides h
    rw [mergeConfig_userDataDir, h]; rfl

/-- C6 witness: a base whose server has both port and host set is wholly
replaced by an overrides server that only sets port — the base host does not
survive — while the base browser userDataDir survives the merge. -/
theorem mergeConfig_server_wholesale_witness :
    (mergeConfig c6Base c6Overrides).server
      = some (some { port := some (some 8080) }) ∧
    (browserOf (mergeConfig c6Base c6Overrides)).userDataDir = some (some "/data") :=
  ⟨mergeConfig_server_wholesale.1 c6Base c6Overrides
      (some { port := some (some 8080) }) rfl,
   mergeConfig_server_wholesale.2 c6Base c6Overrides rfl⟩

/-- C7 counterexample: the claim fails as stated. The profile name only uses
channel when present (falling back to browserName), so the two distinct pairs
(chromium, chrome) and (firefox, chrome) yield the identical path. -/
theorem createUserDataDir_distinct_pairs_counterexample :
    ((BrowserName.chromium, (some "chrome" : Option String))
        ≠ (BrowserName.firefox, (some "chrome" : Option String))) ∧
    (createUserDataDir envL [] BrowserName.chromium (some "chrome")).map Prod.fst
      = (createUserDataDir envL [] BrowserName.firefox (some "chrome")).map Prod.fst :=
  ⟨by decide, rfl⟩

/-- C7 (amended): createUserDataDir is stable — the returned path does not
depend on the filesystem state, and a repeated call on the state left by a
successful call returns the identical path and state without error — and two
calls on the same environment return distinct paths whenever the profile keys
(channel when present, else browserName) differ; in particular the pairs
(chromium, chrome) and (chromium, msedge) yield different paths. Pairs built
by configFromCLIOptions always have distinct profile keys when distinct. -/
theorem createUserDataDir_profile_spec :
    (∀ (env : OsEnv) (fs fs' : DirState) (bn : BrowserName) (ch : Option String),
      (createUserDataDir env fs bn ch).map Prod.fst
        = (createUserDataDir env fs' bn ch).map Prod.fst) ∧
    (∀ (env : OsEnv) (fs : DirState) (bn : BrowserName) (ch : Option String)
        (p : String) (st : DirState),
      createUserDataDir env fs bn ch = Except.ok (p, st) →
      createUserDataDir env st bn ch = Except.ok (p, st)) ∧
    (∀ (env : OsEnv) (fs₁ fs₂ : DirState) (bn₁ bn₂ : BrowserName)
        (ch₁ ch₂ : Option String) (p₁ p₂ : String) (st₁ st₂ : DirState),
      ch₁.getD (browserNameString bn₁) ≠ ch₂.getD (browserNameString bn₂) →
      createUserDataDir env fs₁ bn₁ ch₁ = Except.ok (p₁, st₁) →
      createUserDataDir env fs₂ bn₂ ch₂ = Except.ok (p₂, st₂) →
      p₁ ≠ p₂) := by
  refine ⟨?_, ?_, ?_⟩
  · intro env fs fs' bn ch
    unfold createUserDataDir
    cases env.platform <;> rfl
  · intro env fs bn ch p st h
    obtain ⟨pl, xdg, lad, disp, hd, td, fp, dv⟩ := env
    unfold createUserDataDir at h ⊢
    cases pl with
    | other name => exact absurd h (by simp)
    | linux =>
        simp only [Except.ok.injEq, Prod.mk.injEq] at h
        obtain ⟨hp, hst⟩ := h
        subst hp; subst hst
        simp only [mkdirRecursive_idem]
    | darwin =>
        simp only [Except.ok.injEq, Prod.mk.injEq] at h
        obtain ⟨hp, hst⟩ := h
        subst hp; subst hst
        simp only [mkdirRecursive_idem]
    | win32 =>
        simp only [Except.ok.injEq, Prod.mk.injEq] at h
        obtain ⟨hp, hst⟩ := h
        subst hp; subst hst
        simp only [mkdirRecursive_idem]
  · intro env fs₁ fs₂ bn₁ bn₂ ch₁ ch₂ p₁ p₂ st₁ st₂ hkey h₁ h₂ hpe
    apply hkey
    obtain ⟨pl, xdg, lad, disp, hd, td, fp, dv⟩ := env
    unfold createUserDataDir at h₁ h₂
    cases pl with
    | other name => exact absurd h₁ (by simp)
    | linux =>
        simp only [Except.ok.injEq, Prod.mk.injEq] at h₁ h₂
        obtain ⟨hp₁, -⟩ := h₁
        obtain ⟨hp₂, -⟩ := h₂
        rw [← hp₁, ← hp₂] at hpe
        exact append_around_inj "mcp-" "-profile" _ _ (pathJoin3_inj _ _ _ _ hpe)
    | darwin =>
        simp only [Except.ok.injEq, Prod.mk.injEq] at h₁ h₂
        obtain ⟨hp₁, -⟩ := h₁
        obtain ⟨hp₂, -⟩ := h₂
        rw [← hp₁, ← hp₂] at hpe
        exact append_around_inj "mcp-" "-profile" _ _ (pathJoin3_inj _ _ _ _ hpe)
    | win32 =>
        simp only [Except.ok.injEq, Prod.mk.injEq] at h₁ h₂
        obtain ⟨hp₁, -⟩ := h₁
        obtain ⟨hp₂, -⟩ := h₂
        rw [← hp₁, ← hp₂] at hpe
        exact append_around_inj "mcp-" "-profile" _ _ (pathJoin3_inj _ _ _ _ hpe)

/-- C7 witness: on a concrete linux environment, the path is independent of
the filesystem state, a second call after a successful one returns the same
path and state, and the chrome and msedge channels of chromium get distinct
profile directories. -/
theorem createUserDataDir_profile_spec_witness :
    ((createUserDataDir envL [] BrowserName.chromium (some "chrome")).map Prod.fst
      = (createUserDataDir envL ["/tmp/other"] BrowserName.chromium
          (some "chrome")).map Prod.fst) ∧
    (createUserDataDir envL chromeDirs BrowserName.chromium (some "chrome")
      = Except.ok (chromeProfilePath, chromeDirs)) ∧
    chromeProfilePath ≠ msedgeProfilePath :=
  ⟨createUserDataDir_profile_spec.1 envL [] ["/tmp/other"] BrowserName.chromium
      (some "chrome"),
   createUserDataDir_profile_spec.2.1 envL [] BrowserName.chromium (some "chrome")
      chromeProfilePath chromeDirs rfl,
   createUserDataDir_profile_spec.2.2 envL [] [] BrowserName.chromium
      BrowserName.chromium (some "chrome") (some "msedge") chromeProfilePath
      msedgeProfilePath chromeDirs [msedgeProfilePath] (by decide) rfl rfl⟩

/-- C8: the end-to-end firefox scenario. With the compiled default, no config
file and CLI options browser firefox, headless true, caps core,tabs, the
resolution succeeds and the resolved config has browserName firefox, a
channel key erased to undefined, no webSocketPort reservation, headless true,
assistantMode true and capabilities core and tabs. -/
theorem resolveConfig_firefox_scenario :
    resolveConfig envL noFiles [] cliFirefox = Except.ok (firefoxConfig, firefoxDirs) ∧
    (browserOf firefoxConfig).browserName = some (some BrowserName.firefox) ∧
    (launchOptionsOf firefoxConfig).channel = some none ∧
    (launchOptionsOf firefoxConfig).webSocketPort = none ∧
    (launchOptionsOf firefoxConfig).headless = some (some true) ∧
    (launchOptionsOf firefoxConfig).assistantMode = some (some true) ∧
    firefoxConfig.capabilities = some (some ["core", "tabs"]) :=
  ⟨rfl, rfl, rfl, rfl, rfl, rfl, rfl⟩

/-- C9: browser-token mapping totality and fallback. Every chromium channel
token maps to chromium with the token as channel; firefox and webkit map to
themselves with no channel; an absent or unrecognized token falls back to
chromium with channel chrome rather than an error; the browser name is
always one of the three engines; and a successful configFromCLIOptions run
exposes exactly the mapped browser name and channel. -/
theorem browserChoice_spec :
    (∀ tok, tok ∈ chromiumChannels →
        browserChoice (some tok) = (BrowserName.chromium, some tok)) ∧
    browserChoice (some "firefox") = (BrowserName.firefox, none) ∧
    browserChoice (some "webkit") = (BrowserName.webkit, none) ∧
    browserChoice none = (BrowserName.chromium, some "chrome") ∧
    (∀ tok, tok ∉ chromiumChannels → tok ≠ "firefox" → tok ≠ "webkit" →
        browserChoice (some tok) = (BrowserName.chromium, some "chrome")) ∧
    (∀ b, (browserChoice b).1 = BrowserName.chromium ∨
        (browserChoice b).1 = BrowserName.firefox ∨
        (browserChoice b).1 = BrowserName.webkit) ∧
    (∀ (env : OsEnv) (fs : DirState) (cli : CLIOptions) (C : Config) (st : DirState),
        configFromCLIOptions env fs cli = Except.ok (C, st) →
        (browserOf C).browserName = some (some (browserChoice cli.browser).1) ∧
        (launchOptionsOf C).channel = some (browserChoice cli.browser).2) := by
  refine ⟨?_, by decide, by decide, by decide, ?_, ?_, ?_⟩
  · intro tok h
    simp [browserChoice, h]
  · intro tok h1 h2 h3
    simp [browserChoice, h1, h2, h3]
  · intro b
    rcases b with _ | tok
    · exact Or.inl rfl
    · simp only [browserChoice]
      split_ifs <;> simp
  · intro env fs cli C st h
    exact ⟨(configFromCLIOptions_ok h).2.2.2.1, (configFromCLIOptions_ok h).2.2.2.2.1⟩

/-- C9 witness: the mapping on a chromium channel token, on an unrecognized
token, and the browser name and channel of a concrete configFromCLIOptions
run. -/
theorem browserChoice_spec_witness :
    browserChoice (some "msedge") = (BrowserName.chromium, some "msedge") ∧
    browserChoice (some "not-a-browser") = (BrowserName.chromium, some "chrome") ∧
    (browserOf firefoxCliConfig).browserName
      = some (some (browserChoice cliFirefox.browser).1) ∧
    (launchOptionsOf firefoxCliConfig).channel
      = some (browserChoice cliFirefox.browser).2 :=
  ⟨browserChoice_spec.1 "msedge" (by decide),
   browserChoice_spec.2.2.2.2.1 "not-a-browser" (by decide) (by decide) (by decide),
   browserChoice_spec.2.2.2.2.2.2 envL [] cliFirefox firefoxCliConfig
      ["/home/user/.cache/ms-playwright/mcp-firefox-profile"] rfl⟩

/-- C10: config file loading. With no path loadConfig returns the empty
fragment without error; with a path, a read or parse failure becomes an error
carrying the original path and the underlying cause; and resolveConfig
propagates that error unchanged instead of falling back to defaults. -/
theorem loadConfig_spec :
    (∀ rp : String → Except String Config, loadConfig rp none = Except.ok {}) ∧
    (∀ (rp : String → Except String Config) (p e : String),
        p.isEmpty = false → rp p = Except.error e →
        loadConfig rp (some p)
          = Except.error ("Failed to load config file: " ++ p ++ ", " ++ e)) ∧
    (∀ (env : OsEnv) (rp : String → Except String Config) (fs : DirState)
        (cli : CLIOptions) (p e : String),
        cli.config = some p → p.isEmpty = false → rp p = Except.error e →
        resolveConfig env rp fs cli
          = Except.error ("Failed to load config file: " ++ p ++ ", " ++ e)) := by
  refine ⟨fun rp => rfl, loadConfig_error, ?_⟩
  intro env rp fs cli p e hcfg hp hrp
  unfold resolveConfig
  rw [hcfg, loadConfig_error rp p e hp hrp]

/-- C10 witness: a malformed file at a concrete path yields the wrapped
error from loadConfig and from resolveConfig, while the absent path yields
the empty fragment. -/
theorem loadConfig_spec_witness :
    loadConfig badRead none = Except.ok {} ∧
    loadConfig badRead (some badFile)
      = Except.error ("Failed to load config file: " ++ badFile ++ ", "
          ++ "SyntaxError: Unexpected token in JSON") ∧
    resolveConfig envL badRead [] cliWithConfig
      = Except.error ("Failed to load config file: " ++ badFile ++ ", "
          ++ "SyntaxError: Unexpected token in JSON") :=
  ⟨loadConfig_spec.1 badRead,
   loadConfig_spec.2.1 badRead badFile "SyntaxError: Unexpected token in JSON" rfl rfl,
   loadConfig_spec.2.2 envL badRead [] cliWithConfig badFile
      "SyntaxError: Unexpected token in JSON" rfl rfl rfl⟩

end PlaywrightMcp
